import Mathlib

/-!
Verification development for the Study Buddy Lambda handler
(`cdk/lambda/agent_handler.py`).

The Python module is embedded shallowly:

* Pure helpers (`validate_material_id`, the document-name derivation, the
  source filter, response assembly) become Lean functions.
* The process-wide mutable list `_retrieved_sources` becomes explicit state
  of type `List Passage` threaded through the functions that touch it.
* External effects are parameters: the Bedrock knowledge-base search call is
  a `SearchOutcome` value (its results, or the exception it raised); the
  agent construction plus invocation (`create_study_buddy_agent` followed by
  `agent(message, ...)`) is an oracle `AgentRun`, a state transformer on the
  shared passage list that either returns a structured response or raises;
  reading the bundled `materials.json` is a `FileRead` value.
* `json.loads` / `json.load` are abstracted by their outcome: a text body or
  file carries either the decoded JSON document (`JValue`) or the error of
  the exception it raised.  `json.dumps` is abstracted by keeping response
  bodies as JSON documents (`RespBody.json`) rather than serialized text.
* Python strings are Lean `String`s; `str.lower` is mapped over the
  characters (faithful on ASCII, which is all the code compares against);
  floats (relevance scores) are modelled as rationals — no claim depends on
  float rounding, only on the default value 0 and on pass-through.
* Routing fields of the inbound event (`rawPath`, `path`,
  `requestContext.http.method`, `httpMethod`) are modelled as optional
  strings, i.e. events whose routing fields are well-typed; the body may be
  absent, a text body, or an already-decoded value, exactly the cases the
  Python `isinstance` dispatch distinguishes.
-/

namespace StudyBuddy

/-- Python list-of-chars test that `needle` is a prefix of the second list
(used to build substring containment, i.e. the Python `in` operator). -/
def startsWithL : List Char → List Char → Bool
  | [], _ => true
  | _ :: _, [] => false
  | a :: as, b :: bs => a = b && startsWithL as bs

/-- Python `needle in hay` on strings, at the character-list level:
some suffix of `hay` starts with `needle`. -/
def containsSubL (needle : List Char) : List Char → Bool
  | [] => needle.isEmpty
  | c :: t => startsWithL needle (c :: t) || containsSubL needle t

/-- Python `needle in hay` for strings. -/
def strContainsSub (hay needle : String) : Bool :=
  containsSubL needle.data hay.data

/-- Python `s.lower()` (faithful on ASCII; the code only ever compares
against the ASCII needle `"materials.json"`). -/
def strLower (s : String) : String :=
  String.mk (s.data.map Char.toLower)

/-- Python `s.split(sep)` at the character-list level: splits on every
occurrence of `sep`, keeping empty segments, never returning `[]`. -/
def splitChars (sep : Char) : List Char → List (List Char)
  | [] => [[]]
  | c :: cs =>
    if c = sep then
      [] :: splitChars sep cs
    else
      match splitChars sep cs with
      | [] => [[c]]
      | h :: t => (c :: h) :: t

/-- Spec-side description of the document-name derivation, written from the
spec's words: the substring after the LAST occurrence of `sep`, or the whole
list when `sep` does not occur. -/
def afterLast (sep : Char) : List Char → List Char
  | [] => []
  | c :: cs =>
    if sep ∈ cs then afterLast sep cs
    else if c = sep then cs
    else c :: cs

/-- Spec-side document name: substring of the URI after the last `/`, or the
whole URI when it contains no `/`. -/
def afterLastSlashSpec (uri : String) : String :=
  String.mk (afterLast '/' uri.data)

/-- JSON documents, modelling Python values produced by `json.loads` and
consumed by `json.dumps`. -/
inductive JValue where
  | null : JValue
  | bool (b : Bool) : JValue
  | num (q : ℚ) : JValue
  | str (s : String) : JValue
  | arr (xs : List JValue) : JValue
  | obj (kvs : List (String × JValue)) : JValue

/-- Python truthiness of a JSON value (`if not message`). -/
def jTruthy : JValue → Bool
  | JValue.null => false
  | JValue.bool b => b
  | JValue.num q => if q = 0 then false else true
  | JValue.str s => if s = "" then false else true
  | JValue.arr xs => !xs.isEmpty
  | JValue.obj kvs => !kvs.isEmpty

/-- Python `mapping.get(key, default)` on a decoded JSON object. -/
def jGet (m : List (String × JValue)) (k : String) (dflt : JValue) : JValue :=
  (List.lookup k m).getD dflt

/-- One entry of the process-wide `_retrieved_sources` list: the dict
appended by `retrieve_study_materials` for each knowledge-base result. -/
structure Passage where
  content : String
  score : ℚ
  source : String
  documentName : String

/-- One raw result of the Bedrock `retrieve` call, with the three fields the
code reads.  `none` models a missing key, handled by the code's `.get`
defaults (`""`, `0`, `"Unknown source"`). -/
structure KBResult where
  contentText : Option String
  score : Option ℚ
  uri : Option String

/-- Outcome of the external `bedrock_agent_runtime.retrieve` call: either the
exception it raised (abstracted by its message) or its result list. -/
inductive SearchOutcome where
  | raises (msg : String) : SearchOutcome
  | results (rs : List KBResult) : SearchOutcome

/-- The code's document-name derivation:
`source_uri.split("/")[-1] if "/" in source_uri else source_uri`. -/
def deriveDocumentName (source_uri : String) : String :=
  if strContainsSub source_uri "/" = true then
    String.mk ((splitChars '/' source_uri.data).getLastD [])
  else source_uri

/-- The passage built from one knowledge-base result (the loop body at lines
232-250 of `agent_handler.py`). -/
def mkPassage (r : KBResult) : Passage :=
  { content := r.contentText.getD ""
    score := r.score.getD 0
    source := r.uri.getD "Unknown source"
    documentName := deriveDocumentName (r.uri.getD "Unknown source") }

/-- Rendering of a relevance score in the formatted tool output.  Python
formats with two decimals (`:.2f`); the digit rendering is abstracted since
no claim depends on it. -/
def formatScore (q : ℚ) : String := toString q

/-- One section of the formatted tool output (the f-string at lines
252-256). -/
def formatResult (idx : Nat) (p : Passage) : String :=
  "[Source " ++ toString idx ++ "] (Relevance: " ++ formatScore p.score ++ ")\n"
    ++ p.content ++ "\nFrom: " ++ p.documentName ++ "\n"

/-- The literal returned when `KNOWLEDGE_BASE_ID` is empty. -/
def kbNotConfiguredMsg : String :=
  "Error: Knowledge Base not configured. Please set KNOWLEDGE_BASE_ID environment variable."

/-- The literal returned when the search yields zero results. -/
def noResultsMsg : String :=
  "No relevant information found in the study materials for this query."

/-- The `retrieve_study_materials` tool.  Takes the configured
`KNOWLEDGE_BASE_ID`, the outcome of the external search call, and the current
shared `_retrieved_sources` state; returns the tool's string result and the
new shared state. -/
def retrieve_study_materials (knowledgeBaseId : String) (outcome : SearchOutcome)
    (sources : List Passage) : String × List Passage :=
  if knowledgeBaseId = "" then
    (kbNotConfiguredMsg, sources)
  else
    match outcome with
    | SearchOutcome.raises msg =>
        ("Error retrieving from knowledge base: " ++ msg, [])
    | SearchOutcome.results rs =>
        if rs.isEmpty then
          (noResultsMsg, [])
        else
          (String.intercalate "\n---\n"
            ((List.enumFrom 1 rs).map (fun p => formatResult p.1 (mkPassage p.2))),
           rs.map mkPassage)

/-- The structured output the agent is asked for (`StudyBuddyResponse` in the
Python module).  The material id is kept as an arbitrary optional string and
validated by the handler, exactly as the code does. -/
structure StudyBuddyResponse where
  response : String
  relevant_material_id : Option String

/-- Outcome of one agent invocation: a structured response, or the exception
it raised (abstracted by its message). -/
inductive AgentOutcome where
  | raises (msg : String) : AgentOutcome
  | returns (sr : StudyBuddyResponse) : AgentOutcome

/-- Oracle for `create_study_buddy_agent(session_id)` followed by
`agent(message, structured_output_model=StudyBuddyResponse)`: given the
message and the shared passage list at the time of the call, it yields the
shared list the tool calls leave behind together with the outcome. -/
def AgentRun : Type :=
  JValue → List Passage → List Passage × AgentOutcome

/-- The allow-list `valid_ids` of `validate_material_id`. -/
def valid_ids : List String := ["photosynthesis", "cell_respiration", "mitosis"]

/-- `validate_material_id`: the candidate unchanged when allowed, `none`
otherwise.  Total, hence "never raises". -/
def validate_material_id : Option String → Option String
  | none => none
  | some material_id =>
      if material_id ∈ valid_ids then some material_id else none

/-- Response body: a JSON document (to be serialized by `json.dumps`) or a
raw text body (the empty string of the OPTIONS branch). -/
inductive RespBody where
  | json (v : JValue) : RespBody
  | text (s : String) : RespBody

/-- An API-Gateway style response. -/
structure HttpResponse where
  statusCode : Nat
  headers : List (String × String)
  body : RespBody

/-- Headers of every JSON-returning branch. -/
def jsonCors : List (String × String) :=
  [("Content-Type", "application/json"),
   ("Access-Control-Allow-Origin", "*")]

/-- Headers of the OPTIONS preflight branch. -/
def optionsHeaders : List (String × String) :=
  [("Access-Control-Allow-Origin", "*"),
   ("Access-Control-Allow-Methods", "GET, POST, OPTIONS"),
   ("Access-Control-Allow-Headers", "Content-Type"),
   ("Access-Control-Max-Age", "86400")]

/-- Outcome of opening and `json.load`-ing the bundled `materials.json`:
success with the document, `FileNotFoundError`, or any other exception
(abstracted by its message — this includes a JSON decode error). -/
inductive FileRead where
  | ok (doc : JValue) : FileRead
  | notFound : FileRead
  | fails (msg : String) : FileRead

/-- `get_materials_handler`: 200 with the catalog document, 404 when the file
is absent, 500 for any other failure. -/
def get_materials_handler : FileRead → HttpResponse
  | FileRead.ok materials =>
      { statusCode := 200, headers := jsonCors, body := RespBody.json materials }
  | FileRead.notFound =>
      { statusCode := 404, headers := jsonCors,
        body := RespBody.json (JValue.obj [("error", JValue.str "Materials file not found")]) }
  | FileRead.fails msg =>
      { statusCode := 500, headers := jsonCors,
        body := RespBody.json (JValue.obj
          [("error", JValue.str ("Error loading materials: " ++ msg))]) }

/-- The request body slot of the inbound event: absent, a text body
(abstracted by its `json.loads` outcome), or an already-decoded value. -/
inductive BodyField where
  | absent : BodyField
  | strBody (decoded : Except String JValue) : BodyField
  | rawBody (v : JValue) : BodyField

/-- The inbound event.  `eventObj` is the event's own key/value entries,
used by the code as the body fallback (`event.get("body", event)`). -/
structure Event where
  rawPath : Option String
  pathField : Option String
  methodHttp : Option String
  httpMethod : Option String
  body : BodyField
  eventObj : List (String × JValue)

/-- `event.get("rawPath") or event.get("path", "")`. -/
def eventPath (e : Event) : String :=
  match e.rawPath with
  | some s => if s = "" then e.pathField.getD "" else s
  | none => e.pathField.getD ""

/-- `event.get("requestContext", {}).get("http", {}).get("method") or
event.get("httpMethod", "")`. -/
def eventMethod (e : Event) : String :=
  match e.methodHttp with
  | some s => if s = "" then e.httpMethod.getD "" else s
  | none => e.httpMethod.getD ""

/-- Result of the body-parsing lines 415-418 together with the subsequent
`.get` calls: either the mapping the code reads `message` and `sessionId`
from, or the exception raised (by `json.loads`, or by `.get` on a non-dict
body). -/
inductive ParsedBody where
  | ok (m : List (String × JValue)) : ParsedBody
  | raised (msg : String) : ParsedBody

/-- Treats a decoded body value as a mapping; a non-object makes the later
`body.get(...)` raise `AttributeError`. -/
def asMapping : JValue → ParsedBody
  | JValue.obj m => ParsedBody.ok m
  | _ => ParsedBody.raised "AttributeError: object has no attribute get"

/-- Lines 415-418: a text body is JSON-decoded; a present non-text body is
used as is; an absent body falls back to the event object itself. -/
def parseBody (e : Event) : ParsedBody :=
  match e.body with
  | BodyField.strBody (Except.error msg) => ParsedBody.raised msg
  | BodyField.strBody (Except.ok v) => asMapping v
  | BodyField.rawBody v => asMapping v
  | BodyField.absent => ParsedBody.ok e.eventObj

/-- The source filter of lines 441-445: drop every passage whose document
name contains `"materials.json"` case-insensitively. -/
def filterSources (retrieved : List Passage) : List Passage :=
  retrieved.filter
    (fun s => !(strContainsSub (strLower s.documentName) "materials.json"))

/-- `json.dumps` image of an optional string: `null` or the string. -/
def jOfOption : Option String → JValue
  | none => JValue.null
  | some s => JValue.str s

/-- `json.dumps` image of one retrieved-source dict. -/
def passageJson (p : Passage) : JValue :=
  JValue.obj
    [("content", JValue.str p.content),
     ("score", JValue.num p.score),
     ("source", JValue.str p.source),
     ("documentName", JValue.str p.documentName)]

/-- The 200 chat response of lines 441-467: response text, session id,
validated material id, and — only when the filtered list is non-empty — the
`sources` key, appended last. -/
def chatSuccess (session_id : JValue) (sr : StudyBuddyResponse)
    (retrieved : List Passage) : HttpResponse :=
  { statusCode := 200
    headers := jsonCors
    body := RespBody.json (JValue.obj
      ([("response", JValue.str sr.response),
        ("sessionId", session_id),
        ("relevantMaterialId", jOfOption (validate_material_id sr.relevant_material_id))] ++
       (if (filterSources retrieved).isEmpty then []
        else [("sources", JValue.arr ((filterSources retrieved).map passageJson))]))) }

/-- The catch-all 500 response of lines 475-482. -/
def internalError (msg : String) : HttpResponse :=
  { statusCode := 500, headers := jsonCors,
    body := RespBody.json (JValue.obj
      [("error", JValue.str ("Internal server error: " ++ msg))]) }

/-- The 400 response of lines 423-431. -/
def badRequest : HttpResponse :=
  { statusCode := 400, headers := jsonCors,
    body := RespBody.json (JValue.obj [("error", JValue.str "Message is required")]) }

/-- The OPTIONS preflight response of lines 402-412 (note: no
`Content-Type` header). -/
def optionsResponse : HttpResponse :=
  { statusCode := 200, headers := optionsHeaders, body := RespBody.text "" }

/-- The Lambda `handler`.  State-passing rendition: takes the materials file
outcome, the agent oracle, the event, and the shared `_retrieved_sources`
list left behind by the previous invocation; returns the response and the
final shared list. -/
def handler (fr : FileRead) (run : AgentRun) (e : Event)
    (sources0 : List Passage) : HttpResponse × List Passage :=
  if strContainsSub (eventPath e) "/materials" = true ∧ eventMethod e = "GET" then
    (get_materials_handler fr, sources0)
  else if eventMethod e = "OPTIONS" then
    (optionsResponse, sources0)
  else
    match parseBody e with
    | ParsedBody.raised msg => (internalError msg, sources0)
    | ParsedBody.ok body =>
        if jTruthy (jGet body "message" (JValue.str "")) = false then
          (badRequest, sources0)
        else
          match run (jGet body "message" (JValue.str "")) [] with
          | (sigma1, AgentOutcome.raises msg) => (internalError msg, sigma1)
          | (sigma1, AgentOutcome.returns sr) =>
              (chatSuccess (jGet body "sessionId" (JValue.str "default-session")) sr sigma1,
               sigma1)

/-! Concrete fixtures used by witness and counterexample theorems. -/

/-- A passage a previous invocation could have left in the shared list. -/
def pStale : Passage :=
  { content := "stale", score := 0, source := "s3://bucket/old.txt", documentName := "old.txt" }

/-- An agent oracle that calls no tool and returns a plain answer. -/
def runOkW : AgentRun :=
  fun _ _ => ([], AgentOutcome.returns { response := "ok", relevant_material_id := none })

/-- An agent oracle returning an out-of-set material id. -/
def runBadIdW : AgentRun :=
  fun _ _ => ([], AgentOutcome.returns { response := "ok", relevant_material_id := some "meiosis" })

/-- A materials-file outcome (irrelevant on chat paths). -/
def frW : FileRead := FileRead.notFound

/-- A chat event with a JSON text body carrying a message. -/
def eChatW : Event :=
  { rawPath := none, pathField := some "/chat", methodHttp := some "POST",
    httpMethod := none,
    body := BodyField.strBody (Except.ok (JValue.obj [("message", JValue.str "hi")])),
    eventObj := [] }

/-- A chat event with no body but a top-level message key. -/
def eNoBodyW : Event :=
  { rawPath := none, pathField := some "/chat", methodHttp := some "POST",
    httpMethod := none, body := BodyField.absent,
    eventObj := [("message", JValue.str "hello")] }

/-- A chat event whose text body is not valid JSON. -/
def eBadJsonW : Event :=
  { rawPath := none, pathField := some "/chat", methodHttp := some "POST",
    httpMethod := none, body := BodyField.strBody (Except.error "Expecting value"),
    eventObj := [] }

/-- A chat event with a body lacking the message key. -/
def eNoMsgW : Event :=
  { rawPath := none, pathField := some "/chat", methodHttp := some "POST",
    httpMethod := none,
    body := BodyField.strBody (Except.ok (JValue.obj [("sessionId", JValue.str "s1")])),
    eventObj := [] }

/-- An OPTIONS preflight event. -/
def eOptionsW : Event :=
  { rawPath := some "/chat", pathField := none, methodHttp := some "OPTIONS",
    httpMethod := none, body := BodyField.absent, eventObj := [] }

/-- A GET /materials event. -/
def eMaterialsW : Event :=
  { rawPath := some "/materials", pathField := none, methodHttp := some "GET",
    httpMethod := none, body := BodyField.absent, eventObj := [] }

/-- A knowledge-base result with no score field. -/
def kbResW : KBResult :=
  { contentText := some "Photosynthesis converts light energy.",
    score := none, uri := some "s3://bucket/materials/bio.txt" }

/-- An agent oracle whose tool calls leave one passage in the shared list. -/
def runSrcW : AgentRun :=
  fun _ s =>
    (s ++ [pStale],
     AgentOutcome.returns { response := "ok", relevant_material_id := some "mitosis" })

/-! Lemmas about the split-based document-name derivation. -/

theorem splitChars_ne_nil (sep : Char) (cs : List Char) : splitChars sep cs ≠ [] := by
  cases cs with
  | nil => simp [splitChars]
  | cons c cs =>
    simp only [splitChars]
    split
    · simp
    · split
      · simp
      · simp

theorem splitChars_of_not_mem (sep : Char) (cs : List Char) (h : sep ∉ cs) :
    splitChars sep cs = [cs] := by
  induction cs with
  | nil => rfl
  | cons c cs ih =>
    have hc : ¬ c = sep := by
      intro he
      exact h (he ▸ List.mem_cons_self c cs)
    have hcs : sep ∉ cs := fun hm => h (List.mem_cons_of_mem _ hm)
    simp only [splitChars, if_neg hc, ih hcs]

theorem two_le_splitChars_length (sep : Char) (cs : List Char) (h : sep ∈ cs) :
    2 ≤ (splitChars sep cs).length := by
  induction cs with
  | nil => cases h
  | cons c cs ih =>
    by_cases hc : c = sep
    · subst hc
      have hstep : splitChars c (c :: cs) = [] :: splitChars c cs := by
        simp [splitChars]
      rw [hstep, List.length_cons]
      have hne := splitChars_ne_nil c cs
      have hlen : 1 ≤ (splitChars c cs).length := by
        cases hsp : splitChars c cs with
        | nil => exact absurd hsp hne
        | cons a t => simp
      omega
    · have hcs : sep ∈ cs := by
        rcases List.mem_cons.mp h with he | hm
        · exact absurd he.symm hc
        · exact hm
      simp only [splitChars, if_neg hc]
      cases hsp : splitChars sep cs with
      | nil => exact absurd hsp (splitChars_ne_nil sep cs)
      | cons h0 t =>
        have h2 := ih hcs
        rw [hsp] at h2
        simpa using h2

theorem splitChars_getLastD (sep : Char) (cs : List Char) :
    (splitChars sep cs).getLastD [] = afterLast sep cs := by
  induction cs with
  | nil => rfl
  | cons c cs ih =>
    by_cases hc : c = sep
    · subst hc
      have hstep : splitChars c (c :: cs) = [] :: splitChars c cs := by
        simp [splitChars]
      by_cases hm : c ∈ cs
      · have hA : afterLast c (c :: cs) = afterLast c cs := by
          simp [afterLast, hm]
        rw [hstep, hA, List.getLastD_cons]
        exact ih
      · have hA : afterLast c (c :: cs) = cs := by
          simp [afterLast, hm]
        rw [hstep, hA, List.getLastD_cons, splitChars_of_not_mem _ _ hm]
        rfl
    · by_cases hm : sep ∈ cs
      · have h2 := two_le_splitChars_length sep cs hm
        have hA : afterLast sep (c :: cs) = afterLast sep cs := by
          simp [afterLast, hm]
        cases hsp : splitChars sep cs with
        | nil => exact absurd hsp (splitChars_ne_nil sep cs)
        | cons h0 t =>
          cases t with
          | nil =>
            rw [hsp] at h2
            simp at h2
          | cons t0 ts =>
            have hstep : splitChars sep (c :: cs) = (c :: h0) :: t0 :: ts := by
              simp [splitChars, if_neg hc, hsp]
            rw [hstep, hA, List.getLastD_cons, List.getLastD_cons]
            simp only [hsp, List.getLastD_cons] at ih
            exact ih
      · have hA : afterLast sep (c :: cs) = c :: cs := by
          simp [afterLast, hm, hc]
        have hstep : splitChars sep (c :: cs) = [c :: cs] := by
          simp [splitChars, if_neg hc, splitChars_of_not_mem _ _ hm]
        rw [hstep, hA]
        rfl

theorem afterLast_of_not_mem (sep : Char) (l : List Char) (h : sep ∉ l) :
    afterLast sep l = l := by
  cases l with
  | nil => rfl
  | cons c cs =>
    have h1 : sep ∉ cs := fun hm => h (List.mem_cons_of_mem _ hm)
    have h2 : ¬ c = sep := by
      intro he
      exact h (he ▸ List.mem_cons_self c cs)
    simp [afterLast, h1, h2]

theorem containsSubL_singleton (c : Char) (l : List Char) :
    containsSubL [c] l = true ↔ c ∈ l := by
  induction l with
  | nil => simp [containsSubL]
  | cons a l ih =>
    simp [containsSubL, startsWithL, ih, List.mem_cons]

theorem deriveDocumentName_eq_spec (uri : String) :
    deriveDocumentName uri = afterLastSlashSpec uri := by
  unfold deriveDocumentName afterLastSlashSpec
  by_cases h : strContainsSub uri "/" = true
  · rw [if_pos h, splitChars_getLastD]
  · rw [if_neg h]
    have hm : ('/' : Char) ∉ uri.data := by
      intro hmem
      exact h ((containsSubL_singleton _ _).mpr hmem)
    rw [afterLast_of_not_mem _ _ hm]

/-! Reduction helpers for the handler's chat path. -/

theorem handler_chat_eq (fr : FileRead) (run : AgentRun) (e : Event)
    (sources0 : List Passage) (m : List (String × JValue))
    (h1 : ¬(strContainsSub (eventPath e) "/materials" = true ∧ eventMethod e = "GET"))
    (h2 : ¬ eventMethod e = "OPTIONS")
    (hbody : parseBody e = ParsedBody.ok m) :
    handler fr run e sources0 =
      (if jTruthy (jGet m "message" (JValue.str "")) = false then
        (badRequest, sources0)
      else
        match run (jGet m "message" (JValue.str "")) [] with
        | (sigma1, AgentOutcome.raises msg) => (internalError msg, sigma1)
        | (sigma1, AgentOutcome.returns sr) =>
            (chatSuccess (jGet m "sessionId" (JValue.str "default-session")) sr sigma1,
             sigma1)) := by
  unfold handler
  rw [if_neg h1, if_neg h2, hbody]

theorem handler_raised_eq (fr : FileRead) (run : AgentRun) (e : Event)
    (sources0 : List Passage) (msg : String)
    (h1 : ¬(strContainsSub (eventPath e) "/materials" = true ∧ eventMethod e = "GET"))
    (h2 : ¬ eventMethod e = "OPTIONS")
    (hbody : parseBody e = ParsedBody.raised msg) :
    handler fr run e sources0 = (internalError msg, sources0) := by
  unfold handler
  rw [if_neg h1, if_neg h2, hbody]

theorem lookup_sources_chatSuccess (session_id : JValue) (sr : StudyBuddyResponse)
    (retrieved : List Passage) :
    ∃ kvs, (chatSuccess session_id sr retrieved).body = RespBody.json (JValue.obj kvs) ∧
      List.lookup "sources" kvs =
        (if (filterSources retrieved).isEmpty then none
         else some (JValue.arr ((filterSources retrieved).map passageJson))) ∧
      List.lookup "relevantMaterialId" kvs =
        some (jOfOption (validate_material_id sr.relevant_material_id)) := by
  refine ⟨_, rfl, ?_, rfl⟩
  cases hi : (filterSources retrieved).isEmpty
  · rfl
  · rfl

/-! The claims. -/

/-- Claim C1: for every successful chat response the `relevantMaterialId`
field is `null` or a member of exactly the set photosynthesis,
cell_respiration, mitosis; `validate_material_id` returns its argument
unchanged when the argument is in that set, returns `none` for `none`, and
`none` for every other value (it is a total Lean function, hence never
raises). -/
theorem C1_material_id :
    (∀ (fr : FileRead) (run : AgentRun) (e : Event) (sources0 : List Passage),
        ¬(strContainsSub (eventPath e) "/materials" = true ∧ eventMethod e = "GET") →
        ¬ eventMethod e = "OPTIONS" →
        (handler fr run e sources0).1.statusCode = 200 →
        ∃ kvs v, (handler fr run e sources0).1.body = RespBody.json (JValue.obj kvs) ∧
          List.lookup "relevantMaterialId" kvs = some v ∧
          (v = JValue.null ∨ v = JValue.str "photosynthesis" ∨
            v = JValue.str "cell_respiration" ∨ v = JValue.str "mitosis")) ∧
    validate_material_id none = none ∧
    (∀ s, s ∈ valid_ids → validate_material_id (some s) = some s) ∧
    (∀ s, s ∉ valid_ids → validate_material_id (some s) = none) := by
  refine ⟨?_, rfl, ?_, ?_⟩
  · intro fr run e sources0 h1 h2 hstatus
    cases hb : parseBody e with
    | raised msg =>
      rw [handler_raised_eq fr run e sources0 msg h1 h2 hb] at hstatus
      simp [internalError] at hstatus
    | ok m =>
      rw [handler_chat_eq fr run e sources0 m h1 h2 hb] at hstatus ⊢
      by_cases hmsg : jTruthy (jGet m "message" (JValue.str "")) = false
      · rw [if_pos hmsg] at hstatus
        simp [badRequest] at hstatus
      · rw [if_neg hmsg] at hstatus ⊢
        cases hr : run (jGet m "message" (JValue.str "")) [] with
        | mk sigma1 out =>
          rw [hr] at hstatus
          cases out with
          | raises msg =>
            simp [internalError] at hstatus
          | returns sr =>
            refine ⟨_, _, rfl, rfl, ?_⟩
            cases hmid : sr.relevant_material_id with
            | none => exact Or.inl rfl
            | some s =>
              simp only [validate_material_id]
              by_cases hs : s ∈ valid_ids
              · rw [if_pos hs]
                have hs2 : s = "photosynthesis" ∨ s = "cell_respiration" ∨ s = "mitosis" := by
                  simpa [valid_ids] using hs
                rcases hs2 with h | h | h
                · subst h
                  exact Or.inr (Or.inl rfl)
                · subst h
                  exact Or.inr (Or.inr (Or.inl rfl))
                · subst h
                  exact Or.inr (Or.inr (Or.inr rfl))
              · rw [if_neg hs]
                exact Or.inl rfl
  · intro s hs
    simp only [validate_material_id]
    rw [if_pos hs]
  · intro s hs
    simp only [validate_material_id]
    rw [if_neg hs]

/-- Witness for C1 at a concrete chat event whose agent returns the
out-of-set material id "meiosis". -/
theorem C1_witness :
    (∃ kvs v, (handler frW runBadIdW eChatW []).1.body = RespBody.json (JValue.obj kvs) ∧
        List.lookup "relevantMaterialId" kvs = some v ∧
        (v = JValue.null ∨ v = JValue.str "photosynthesis" ∨
          v = JValue.str "cell_respiration" ∨ v = JValue.str "mitosis")) ∧
    validate_material_id (some "mitosis") = some "mitosis" ∧
    validate_material_id (some "meiosis") = none :=
  ⟨C1_material_id.1 frW runBadIdW eChatW [] (by decide) (by decide) rfl,
   C1_material_id.2.2.1 "mitosis" (by decide),
   C1_material_id.2.2.2 "meiosis" (by decide)⟩

/-- Claim C2: on every chat invocation that reaches the agent call the
handler's result does not depend on the shared passage list left behind by
the previous invocation, and the final shared list is the one produced by
running the agent from the empty list — the reset happens before the agent
is constructed and invoked. -/
theorem C2_reset_isolation (fr : FileRead) (run : AgentRun) (e : Event)
    (sources0 sources1 : List Passage) (m : List (String × JValue))
    (h1 : ¬(strContainsSub (eventPath e) "/materials" = true ∧ eventMethod e = "GET"))
    (h2 : ¬ eventMethod e = "OPTIONS")
    (hbody : parseBody e = ParsedBody.ok m)
    (hmsg : ¬ jTruthy (jGet m "message" (JValue.str "")) = false) :
    handler fr run e sources0 = handler fr run e sources1 ∧
    (handler fr run e sources0).2 = (run (jGet m "message" (JValue.str "")) []).1 := by
  rw [handler_chat_eq fr run e sources0 m h1 h2 hbody,
      handler_chat_eq fr run e sources1 m h1 h2 hbody, if_neg hmsg, if_neg hmsg]
  cases hr : run (jGet m "message" (JValue.str "")) [] with
  | mk sigma1 out =>
    cases out with
    | raises msg => exact ⟨rfl, rfl⟩
    | returns sr => exact ⟨rfl, rfl⟩

/-- Witness for C2: a stale passage left by a previous invocation does not
change the handler's response or final state. -/
theorem C2_witness :
    handler frW runOkW eChatW [pStale] = handler frW runOkW eChatW [] ∧
    (handler frW runOkW eChatW [pStale]).2 =
      (runOkW (jGet [("message", JValue.str "hi")] "message" (JValue.str "")) []).1 :=
  C2_reset_isolation frW runOkW eChatW [pStale] [] [("message", JValue.str "hi")]
    (by decide) (by decide) rfl (by decide)

/-- Counterexample to claim C3 as stated: in the unconfigured-knowledge-base
failure case the tool returns its error string but leaves the shared passage
list unchanged — it does not clear it. -/
theorem C3_counterexample :
    (retrieve_study_materials "" (SearchOutcome.results []) [pStale]).1 =
      kbNotConfiguredMsg ∧
    (retrieve_study_materials "" (SearchOutcome.results []) [pStale]).2 = [pStale] ∧
    [pStale] ≠ ([] : List Passage) :=
  ⟨rfl, rfl, List.cons_ne_nil _ _⟩

/-- Claim C3 (amended): the tool is total (never raises) and returns a
human-readable error or no-information string in each failure case; it
clears the shared passage list when the search call raises or returns zero
results, but leaves the list unchanged when the knowledge-base identifier is
unconfigured. -/
theorem C3_amended_fail_soft (knowledgeBaseId msg : String)
    (outcome : SearchOutcome) (sources : List Passage) :
    retrieve_study_materials "" outcome sources = (kbNotConfiguredMsg, sources) ∧
    (¬ knowledgeBaseId = "" →
      retrieve_study_materials knowledgeBaseId (SearchOutcome.raises msg) sources =
        ("Error retrieving from knowledge base: " ++ msg, [])) ∧
    (¬ knowledgeBaseId = "" →
      retrieve_study_materials knowledgeBaseId (SearchOutcome.results []) sources =
        (noResultsMsg, [])) := by
  refine ⟨rfl, ?_, ?_⟩
  · intro h
    unfold retrieve_study_materials
    rw [if_neg h]
  · intro h
    unfold retrieve_study_materials
    rw [if_neg h]
    rfl

/-- Witness for C3 (amended) at concrete inputs. -/
theorem C3_witness :
    retrieve_study_materials "" (SearchOutcome.raises "boom") [pStale] =
      (kbNotConfiguredMsg, [pStale]) ∧
    retrieve_study_materials "kb1" (SearchOutcome.raises "boom") [pStale] =
      ("Error retrieving from knowledge base: " ++ "boom", []) ∧
    retrieve_study_materials "kb1" (SearchOutcome.results []) [pStale] =
      (noResultsMsg, []) :=
  ⟨(C3_amended_fail_soft "kb1" "boom" (SearchOutcome.raises "boom") [pStale]).1,
   (C3_amended_fail_soft "kb1" "boom" (SearchOutcome.raises "boom") [pStale]).2.1
     (by decide),
   (C3_amended_fail_soft "kb1" "boom" (SearchOutcome.raises "boom") [pStale]).2.2
     (by decide)⟩

/-- Claim C9: on a successful retrieval with at least one (and at most 5)
results, the shared list afterwards is exactly the results mapped to
passages in rank order (the clear followed by the k appends); the relevance
score defaults to 0 when the result lacks one; the document name is the
substring of the source URI after the last slash, or the whole URI when it
contains none. -/
theorem C9_success_appends (knowledgeBaseId : String) (rs : List KBResult)
    (sources : List Passage)
    (hkb : ¬ knowledgeBaseId = "") (hne : ¬ rs = []) (hk : rs.length ≤ 5) :
    (retrieve_study_materials knowledgeBaseId (SearchOutcome.results rs) sources).2 =
      rs.map mkPassage ∧
    (rs.map mkPassage).length = rs.length ∧
    (∀ r : KBResult, r.score = none → (mkPassage r).score = 0) ∧
    (∀ r ∈ rs, (mkPassage r).score = r.score.getD 0) ∧
    (∀ r ∈ rs, (mkPassage r).documentName =
      afterLastSlashSpec (r.uri.getD "Unknown source")) ∧
    (∀ uri : String, ('/' : Char) ∉ uri.data → afterLastSlashSpec uri = uri) := by
  refine ⟨?_, List.length_map _ _, ?_, ?_, ?_, ?_⟩
  · cases rs with
    | nil => exact absurd rfl hne
    | cons a t =>
      unfold retrieve_study_materials
      rw [if_neg hkb]
      rfl
  · intro r h
    show r.score.getD 0 = 0
    rw [h]
    rfl
  · intro r _
    rfl
  · intro r _
    show deriveDocumentName (r.uri.getD "Unknown source") =
      afterLastSlashSpec (r.uri.getD "Unknown source")
    exact deriveDocumentName_eq_spec _
  · intro uri h
    unfold afterLastSlashSpec
    rw [afterLast_of_not_mem _ _ h]

/-- Witness for C9 at one concrete result lacking a score. -/
theorem C9_witness :
    (retrieve_study_materials "kb1" (SearchOutcome.results [kbResW]) [pStale]).2 =
      [kbResW].map mkPassage ∧
    ([kbResW].map mkPassage).length = [kbResW].length ∧
    (∀ r : KBResult, r.score = none → (mkPassage r).score = 0) ∧
    (∀ r ∈ [kbResW], (mkPassage r).score = r.score.getD 0) ∧
    (∀ r ∈ [kbResW], (mkPassage r).documentName =
      afterLastSlashSpec (r.uri.getD "Unknown source")) ∧
    (∀ uri : String, ('/' : Char) ∉ uri.data → afterLastSlashSpec uri = uri) :=
  C9_success_appends "kb1" [kbResW] [pStale] (by decide) (List.cons_ne_nil _ _) (by decide)

/-- Claim C10: a chat request that fails message validation returns 400 and
leaves the shared passage list exactly as the previous invocation left it. -/
theorem C10_invalid_leaves_state (fr : FileRead) (run : AgentRun) (e : Event)
    (sources0 : List Passage) (m : List (String × JValue))
    (h1 : ¬(strContainsSub (eventPath e) "/materials" = true ∧ eventMethod e = "GET"))
    (h2 : ¬ eventMethod e = "OPTIONS")
    (hbody : parseBody e = ParsedBody.ok m)
    (hmsg : jTruthy (jGet m "message" (JValue.str "")) = false) :
    (handler fr run e sources0).2 = sources0 ∧
    (handler fr run e sources0).1.statusCode = 400 := by
  rw [handler_chat_eq fr run e sources0 m h1 h2 hbody, if_pos hmsg]
  exact ⟨rfl, rfl⟩

/-- Witness for C10: a message-less request returns 400 and keeps the stale
passage in the shared list. -/
theorem C10_witness :
    (handler frW runOkW eNoMsgW [pStale]).2 = [pStale] ∧
    (handler frW runOkW eNoMsgW [pStale]).1.statusCode = 400 :=
  C10_invalid_leaves_state frW runOkW eNoMsgW [pStale] [("sessionId", JValue.str "s1")]
    (by decide) (by decide) rfl rfl

/-- Claim C4: the chat success response's sources are exactly the shared
passage list with every entry whose document name contains the
case-insensitive substring "materials.json" removed, and the `sources` key
is present if and only if that filtered list is non-empty. -/
theorem C4_sources_filtered (fr : FileRead) (run : AgentRun) (e : Event)
    (sources0 sigma1 : List Passage) (m : List (String × JValue))
    (sr : StudyBuddyResponse)
    (h1 : ¬(strContainsSub (eventPath e) "/materials" = true ∧ eventMethod e = "GET"))
    (h2 : ¬ eventMethod e = "OPTIONS")
    (hbody : parseBody e = ParsedBody.ok m)
    (hmsg : ¬ jTruthy (jGet m "message" (JValue.str "")) = false)
    (hrun : run (jGet m "message" (JValue.str "")) [] = (sigma1, AgentOutcome.returns sr)) :
    ∃ kvs, (handler fr run e sources0).1.body = RespBody.json (JValue.obj kvs) ∧
      filterSources sigma1 =
        sigma1.filter (fun s => !(strContainsSub (strLower s.documentName) "materials.json")) ∧
      (filterSources sigma1 = [] → List.lookup "sources" kvs = none) ∧
      (¬ filterSources sigma1 = [] →
        List.lookup "sources" kvs =
          some (JValue.arr ((filterSources sigma1).map passageJson))) ∧
      (∀ p ∈ filterSources sigma1,
        strContainsSub (strLower p.documentName) "materials.json" = false) := by
  rw [handler_chat_eq fr run e sources0 m h1 h2 hbody, if_neg hmsg, hrun]
  obtain ⟨kvs, hbody2, hsrc, -⟩ :=
    lookup_sources_chatSuccess (jGet m "sessionId" (JValue.str "default-session")) sr sigma1
  refine ⟨kvs, hbody2, rfl, ?_, ?_, ?_⟩
  · intro hemp
    have he : (filterSources sigma1).isEmpty = true := by
      rw [hemp]
      rfl
    rw [hsrc, if_pos he]
  · intro hne
    have he : (filterSources sigma1).isEmpty = false := by
      cases hfe : filterSources sigma1 with
      | nil => exact absurd hfe hne
      | cons a t => rfl
    have hne2 : ¬ (filterSources sigma1).isEmpty = true := by
      rw [he]
      decide
    rw [hsrc, if_neg hne2]
  · intro p hp
    have h3 := (List.mem_filter.mp hp).2
    simpa using h3

/-- Witness for C4 at a concrete chat event whose agent leaves one passage
behind. -/
theorem C4_witness :
    ∃ kvs, (handler frW runSrcW eChatW []).1.body = RespBody.json (JValue.obj kvs) ∧
      filterSources [pStale] =
        List.filter (fun s => !(strContainsSub (strLower s.documentName) "materials.json"))
          [pStale] ∧
      (filterSources [pStale] = [] → List.lookup "sources" kvs = none) ∧
      (¬ filterSources [pStale] = [] →
        List.lookup "sources" kvs =
          some (JValue.arr ((filterSources [pStale]).map passageJson))) ∧
      (∀ p ∈ filterSources [pStale],
        strContainsSub (strLower p.documentName) "materials.json" = false) :=
  C4_sources_filtered frW runSrcW eChatW [] [pStale] [("message", JValue.str "hi")]
    { response := "ok", relevant_material_id := some "mitosis" }
    (by decide) (by decide) rfl (by decide) rfl

/-- Counterexample to claim C5 as stated: an event with no body but a
top-level message key does not fail validation — the code falls back to the
event object itself, finds the message, and succeeds with status 200. -/
theorem C5_counterexample :
    (handler frW runOkW eNoBodyW []).1.statusCode = 200 ∧
    ¬ (handler frW runOkW eNoBodyW []).1.statusCode = 400 :=
  ⟨rfl, by decide⟩

/-- Claim C5 (amended): a text body is decoded as JSON (a decode failure
raises into the 500 branch); when the body is absent the event object itself
is used as the mapping, so a top-level message key is honored instead of the
request failing validation; the session id defaults to "default-session"
whenever the mapping has no sessionId key. -/
theorem C5_amended_body_parsing :
    (∀ (e : Event) (m : List (String × JValue)),
      e.body = BodyField.strBody (Except.ok (JValue.obj m)) →
        parseBody e = ParsedBody.ok m) ∧
    (∀ (e : Event) (msg : String),
      e.body = BodyField.strBody (Except.error msg) →
        parseBody e = ParsedBody.raised msg) ∧
    (∀ e : Event, e.body = BodyField.absent → parseBody e = ParsedBody.ok e.eventObj) ∧
    (∀ m : List (String × JValue), List.lookup "sessionId" m = none →
      jGet m "sessionId" (JValue.str "default-session") =
        JValue.str "default-session") := by
  refine ⟨?_, ?_, ?_, ?_⟩
  · intro e m h
    unfold parseBody
    rw [h]
    rfl
  · intro e msg h
    unfold parseBody
    rw [h]
  · intro e h
    unfold parseBody
    rw [h]
  · intro m h
    unfold jGet
    rw [h]
    rfl

/-- Witness for C5 (amended) at concrete events. -/
theorem C5_witness :
    parseBody eChatW = ParsedBody.ok [("message", JValue.str "hi")] ∧
    parseBody eBadJsonW = ParsedBody.raised "Expecting value" ∧
    parseBody eNoBodyW = ParsedBody.ok [("message", JValue.str "hello")] ∧
    jGet [] "sessionId" (JValue.str "default-session") = JValue.str "default-session" :=
  ⟨C5_amended_body_parsing.1 eChatW [("message", JValue.str "hi")] rfl,
   C5_amended_body_parsing.2.1 eBadJsonW "Expecting value" rfl,
   C5_amended_body_parsing.2.2.1 eNoBodyW rfl,
   C5_amended_body_parsing.2.2.2 [] rfl⟩

/-- Claim C6: a chat request whose message is absent or the empty string
after body parsing yields status 400 with an error body, and the agent is
never constructed or invoked (the handler's result is independent of the
agent oracle). -/
theorem C6_empty_message_400 (fr : FileRead) (run run2 : AgentRun) (e : Event)
    (sources0 : List Passage) (m : List (String × JValue))
    (h1 : ¬(strContainsSub (eventPath e) "/materials" = true ∧ eventMethod e = "GET"))
    (h2 : ¬ eventMethod e = "OPTIONS")
    (hbody : parseBody e = ParsedBody.ok m)
    (hmsg : List.lookup "message" m = none ∨
      List.lookup "message" m = some (JValue.str "")) :
    (handler fr run e sources0).1.statusCode = 400 ∧
    (∃ kvs, (handler fr run e sources0).1.body = RespBody.json (JValue.obj kvs) ∧
      List.lookup "error" kvs = some (JValue.str "Message is required")) ∧
    handler fr run e sources0 = handler fr run2 e sources0 := by
  have hfalse : jTruthy (jGet m "message" (JValue.str "")) = false := by
    rcases hmsg with h | h
    · unfold jGet
      rw [h]
      rfl
    · unfold jGet
      rw [h]
      rfl
  rw [handler_chat_eq fr run e sources0 m h1 h2 hbody,
      handler_chat_eq fr run2 e sources0 m h1 h2 hbody, if_pos hfalse, if_pos hfalse]
  exact ⟨rfl, ⟨_, rfl, rfl⟩, rfl⟩

/-- Witness for C6 at a concrete message-less request, with two different
agent oracles. -/
theorem C6_witness :
    (handler frW runOkW eNoMsgW []).1.statusCode = 400 ∧
    (∃ kvs, (handler frW runOkW eNoMsgW []).1.body = RespBody.json (JValue.obj kvs) ∧
      List.lookup "error" kvs = some (JValue.str "Message is required")) ∧
    handler frW runOkW eNoMsgW [] = handler frW runBadIdW eNoMsgW [] :=
  C6_empty_message_400 frW runOkW runBadIdW eNoMsgW [] [("sessionId", JValue.str "s1")]
    (by decide) (by decide) rfl (Or.inl rfl)

/-- Claim C7: a GET request whose path contains /materials returns 200 with
the catalog document when the file is present, 404 with an error body when
it is absent, and 500 with an error body on any other failure. -/
theorem C7_materials_route (run : AgentRun) (e : Event) (sources0 : List Passage)
    (hpath : strContainsSub (eventPath e) "/materials" = true)
    (hmethod : eventMethod e = "GET") :
    (∀ doc, handler (FileRead.ok doc) run e sources0 =
      ({ statusCode := 200, headers := jsonCors, body := RespBody.json doc }, sources0)) ∧
    ((handler FileRead.notFound run e sources0).1.statusCode = 404 ∧
      (handler FileRead.notFound run e sources0).1.body =
        RespBody.json (JValue.obj [("error", JValue.str "Materials file not found")])) ∧
    (∀ msg, (handler (FileRead.fails msg) run e sources0).1.statusCode = 500 ∧
      (handler (FileRead.fails msg) run e sources0).1.body =
        RespBody.json (JValue.obj
          [("error", JValue.str ("Error loading materials: " ++ msg))])) := by
  have hmat : ∀ fr2 : FileRead,
      handler fr2 run e sources0 = (get_materials_handler fr2, sources0) := by
    intro fr2
    unfold handler
    rw [if_pos ⟨hpath, hmethod⟩]
  refine ⟨?_, ?_, ?_⟩
  · intro doc
    rw [hmat (FileRead.ok doc)]
    rfl
  · rw [hmat FileRead.notFound]
    exact ⟨rfl, rfl⟩
  · intro msg
    rw [hmat (FileRead.fails msg)]
    exact ⟨rfl, rfl⟩

/-- Witness for C7 at a concrete GET /materials event. -/
theorem C7_witness :
    handler (FileRead.ok (JValue.obj [])) runOkW eMaterialsW [] =
      ({ statusCode := 200, headers := jsonCors, body := RespBody.json (JValue.obj []) },
        []) ∧
    (handler FileRead.notFound runOkW eMaterialsW []).1.statusCode = 404 :=
  ⟨(C7_materials_route runOkW eMaterialsW [] (by decide) (by decide)).1 (JValue.obj []),
   ((C7_materials_route runOkW eMaterialsW [] (by decide) (by decide)).2.1).1⟩

/-- Counterexample to claim C8 as stated: the OPTIONS preflight response
does not include a Content-Type header at all. -/
theorem C8_counterexample :
    (handler frW runOkW eOptionsW []).1.statusCode = 200 ∧
    List.lookup "Content-Type" (handler frW runOkW eOptionsW []).1.headers = none :=
  ⟨rfl, rfl⟩

/-- Claim C8 (amended): every branch of the handler includes the header
Access-Control-Allow-Origin: *; every branch except the OPTIONS preflight
also includes Content-Type: application/json; the OPTIONS preflight omits
Content-Type and additionally declares allowed methods GET, POST, OPTIONS,
allowed headers Content-Type, and a max-age of 86400. -/
theorem C8_amended_headers (fr : FileRead) (run : AgentRun) (e : Event)
    (sources0 : List Passage) :
    List.lookup "Access-Control-Allow-Origin" (handler fr run e sources0).1.headers =
      some "*" ∧
    ((handler fr run e sources0).1.headers = jsonCors ∨
      (handler fr run e sources0).1.headers = optionsHeaders) ∧
    (¬(strContainsSub (eventPath e) "/materials" = true ∧ eventMethod e = "GET") →
      eventMethod e = "OPTIONS" →
      (handler fr run e sources0).1.headers = optionsHeaders ∧
      List.lookup "Content-Type" optionsHeaders = none ∧
      List.lookup "Access-Control-Allow-Methods" optionsHeaders =
        some "GET, POST, OPTIONS" ∧
      List.lookup "Access-Control-Allow-Headers" optionsHeaders = some "Content-Type" ∧
      List.lookup "Access-Control-Max-Age" optionsHeaders = some "86400") ∧
    (((strContainsSub (eventPath e) "/materials" = true ∧ eventMethod e = "GET") ∨
        ¬ eventMethod e = "OPTIONS") →
      List.lookup "Content-Type" (handler fr run e sources0).1.headers =
        some "application/json") := by
  have hjson : ((strContainsSub (eventPath e) "/materials" = true ∧
        eventMethod e = "GET") ∨ ¬ eventMethod e = "OPTIONS") →
      (handler fr run e sources0).1.headers = jsonCors := by
    intro hcase
    by_cases hm1 : strContainsSub (eventPath e) "/materials" = true ∧ eventMethod e = "GET"
    · unfold handler
      rw [if_pos hm1]
      cases fr <;> rfl
    · have hm2 : ¬ eventMethod e = "OPTIONS" := by
        rcases hcase with h | h
        · exact absurd h hm1
        · exact h
      cases hb : parseBody e with
      | raised msg =>
        rw [handler_raised_eq fr run e sources0 msg hm1 hm2 hb]
        rfl
      | ok m =>
        rw [handler_chat_eq fr run e sources0 m hm1 hm2 hb]
        by_cases hmsg : jTruthy (jGet m "message" (JValue.str "")) = false
        · rw [if_pos hmsg]
          rfl
        · rw [if_neg hmsg]
          cases hr : run (jGet m "message" (JValue.str "")) [] with
          | mk sigma1 out =>
            cases out with
            | raises msg => rfl
            | returns sr => rfl
  have hoptH : ¬(strContainsSub (eventPath e) "/materials" = true ∧
        eventMethod e = "GET") → eventMethod e = "OPTIONS" →
      (handler fr run e sources0).1.headers = optionsHeaders := by
    intro hno hopt
    unfold handler
    rw [if_neg hno, if_pos hopt]
    rfl
  have hcases : (handler fr run e sources0).1.headers = jsonCors ∨
      (handler fr run e sources0).1.headers = optionsHeaders := by
    by_cases hm1 : strContainsSub (eventPath e) "/materials" = true ∧ eventMethod e = "GET"
    · exact Or.inl (hjson (Or.inl hm1))
    · by_cases hm2 : eventMethod e = "OPTIONS"
      · exact Or.inr (hoptH hm1 hm2)
      · exact Or.inl (hjson (Or.inr hm2))
  refine ⟨?_, hcases, ?_, ?_⟩
  · rcases hcases with h | h
    · rw [h]
      rfl
    · rw [h]
      rfl
  · intro hno hopt
    exact ⟨hoptH hno hopt, rfl, rfl, rfl, rfl⟩
  · intro hcase
    rw [hjson hcase]
    rfl

/-- Witness for C8 (amended): the OPTIONS branch at a concrete event, and
the Content-Type header on a concrete chat branch. -/
theorem C8_witness :
    ((handler frW runOkW eOptionsW []).1.headers = optionsHeaders ∧
      List.lookup "Content-Type" optionsHeaders = none ∧
      List.lookup "Access-Control-Allow-Methods" optionsHeaders =
        some "GET, POST, OPTIONS" ∧
      List.lookup "Access-Control-Allow-Headers" optionsHeaders = some "Content-Type" ∧
      List.lookup "Access-Control-Max-Age" optionsHeaders = some "86400") ∧
    List.lookup "Content-Type" (handler frW runOkW eChatW []).1.headers =
      some "application/json" :=
  ⟨(C8_amended_headers frW runOkW eOptionsW []).2.2.1 (by decide) (by decide),
   (C8_amended_headers frW runOkW eChatW []).2.2.2 (Or.inr (by decide))⟩

end StudyBuddy
